import Mathlib

/-!
# Kernel loading and launch (libtriton_jit)

A shallow embedding of `src/triton_kernel.cpp` (`TritonKernel::lazy_init_handle`,
`TritonKernel::launch`) and of `ensure_cuda_context` from `src/jit_utils.cpp`.

The CUDA driver and runtime are external.  Every call the code makes to them is
recorded, with its arguments, in a trace; the status and the out value of each
call are supplied by a `Driver`, about which nothing is assumed unless a theorem
says so.  Logging statements have no effect on the state and are left out.
-/

namespace triton_jit

/-! ## Machine integers -/

/-- Value of a mathematical integer stored in a C++ `int` (32 bits, two's complement). -/
def wrapInt32 (x : Int) : Int := (x + 2147483648) % 4294967296 - 2147483648

/-- Value of an `int` converted to `unsigned int` (reduction modulo 2^32). -/
def toUInt32 (x : Int) : Nat := (x % 4294967296).toNat

/-! ## The driver interface -/

/-- Status code of a driver call (`CUresult`), also used for `cudaError_t`. -/
abbrev CUresult := Nat

/-- The success status of the driver API. -/
def CUDA_SUCCESS : CUresult := 0

/-- The success status of the runtime API. -/
def cudaSuccess : CUresult := 0

/-- The device attributes queried by the loader. -/
inductive CUdevice_attribute where
  | COMPUTE_CAPABILITY_MAJOR
  | COMPUTE_CAPABILITY_MINOR
  | MAX_SHARED_MEMORY_PER_BLOCK_OPTIN
  | MAX_SHARED_MEMORY_PER_MULTIPROCESSOR
  deriving DecidableEq, Repr

/-- The function attributes read or written by the loader. -/
inductive CUfunction_attribute where
  | SHARED_SIZE_BYTES
  | MAX_DYNAMIC_SHARED_SIZE_BYTES
  deriving DecidableEq, Repr

/-- Cache preferences of a device function. -/
inductive CUfunc_cache where
  | PREFER_NONE
  | PREFER_SHARED
  | PREFER_L1
  | PREFER_EQUAL
  deriving DecidableEq, Repr

/-- A call into the CUDA driver or runtime, with the input arguments it is given.
Handles (contexts, modules, functions, streams) and device ordinals are integers;
the null handle is `0`. -/
inductive Call where
  | cuCtxGetCurrent
  | cudaGetDevice
  | cuDeviceGet (ordinal : Int)
  | cuDevicePrimaryCtxRetain (dev : Int)
  | cuCtxSetCurrent (ctx : Int)
  | cuCtxGetDevice
  | cuDeviceGetAttribute (attrib : CUdevice_attribute) (dev : Int)
  | cuModuleLoad (fname : String)
  | cuModuleGetFunction (hmod : Int) (name : String)
  | cuFuncSetCacheConfig (hfunc : Int) (config : CUfunc_cache)
  | cuFuncGetAttribute (attrib : CUfunction_attribute) (hfunc : Int)
  | cuFuncSetAttribute (hfunc : Int) (attrib : CUfunction_attribute) (value : Int)
  | cuLaunchKernel (f : Int) (gridDimX gridDimY gridDimZ : Nat)
      (blockDimX blockDimY blockDimZ : Nat) (sharedMemBytes : Nat)
      (hStream : Int) (kernelParams : List Int)
  deriving DecidableEq, Repr

/-- What a call gives back: its status and the value found in its out parameter
afterwards.  For a failed call `out` stands for whatever the variable then holds. -/
structure Response where
  status : CUresult
  out : Int
  deriving DecidableEq, Repr

/-- The answers of the driver during one operation.  Within one run every call
issued by the operations below differs from the others in its constructor or its
attribute, so a driver fixes one answer per issued call and no more.  The out
value of `cuCtxGetCurrent` is not taken from the driver but from the world. -/
abbrev Driver := Call → Response

/-- The ambient state seen by the calling thread: the context current on it
(`0` when none is) and the calls issued so far, oldest first. -/
structure World where
  current : Int
  trace : List Call
  deriving DecidableEq, Repr

/-- The world after call `c` was issued in `w`: the call is appended to the trace,
and a successful `cuCtxSetCurrent` binds its argument to the thread. -/
def after (D : Driver) (w : World) (c : Call) : World :=
  { current :=
      match c with
      | .cuCtxSetCurrent ctx => if (D c).status = CUDA_SUCCESS then ctx else w.current
      | _ => w.current
    trace := w.trace ++ [c] }

/-- The calls issued between world `w` and a later world `w1`. -/
def issued (w w1 : World) : List Call := w1.trace.drop w.trace.length

/-! ## Errors -/

/-- The failures the loader and launcher signal.  In the source the last two are
`std::runtime_error` with the messages "compute architecture mismatch!" and
"Out0fResources: Requested shared memory ... exceeds GPU's maximum ...". -/
inductive Error where
  | DeviceError (status : CUresult)
  | ArchitectureMismatchError
  | ResourceExceededError (requested : Nat) (maximum : Int)
  deriving DecidableEq, Repr

/-- Modelled from the spec: the macro `checkCudaErrors` is defined in the header
`triton_jit/jit_utils.h`, which is not among the sources.  A failing driver call
signals a device error with the originating call's status; a successful one
lets execution continue. -/
def checkCudaErrors (code : CUresult) : Except Error Unit :=
  if code = CUDA_SUCCESS then .ok () else .error (.DeviceError code)

/-! ## Context bootstrap (`jit_utils.cpp`) -/

/-- Result of `ensure_cuda_context`: how it ended and the world it left. -/
structure CtxOutcome where
  result : Except Error Unit
  world : World

/-- The function `ensure_cuda_context` of `jit_utils.cpp`. -/
def ensure_cuda_context (D : Driver) (w : World) : CtxOutcome :=
  let r0 := D .cuCtxGetCurrent
  let w0 := after D w .cuCtxGetCurrent
  match checkCudaErrors r0.status with
  | .error e => ⟨.error e, w0⟩
  | .ok _ =>
  -- the query reports the context that is current on the thread
  let pctx := w.current
  if pctx ≠ 0 then ⟨.ok (), w0⟩ else
  -- Prefer the runtime's current device if already set; otherwise fall back to device 0.
  let r1 := D .cudaGetDevice
  let w1 := after D w0 .cudaGetDevice
  let rt_status := r1.status
  let runtime_dev := r1.out
  let c2 : Call :=
    if rt_status = cudaSuccess ∧ runtime_dev ≥ 0 then .cuDeviceGet runtime_dev
    else .cuDeviceGet 0
  let r2 := D c2
  let w2 := after D w1 c2
  match checkCudaErrors r2.status with
  | .error e => ⟨.error e, w2⟩
  | .ok _ =>
  let device_index := r2.out
  let c3 := Call.cuDevicePrimaryCtxRetain device_index
  let r3 := D c3
  let w3 := after D w2 c3
  match checkCudaErrors r3.status with
  | .error e => ⟨.error e, w3⟩
  | .ok _ =>
  let pctx := r3.out
  let c4 := Call.cuCtxSetCurrent pctx
  let r4 := D c4
  let w4 := after D w3 c4
  ⟨checkCudaErrors r4.status, w4⟩

/-! ## The kernel handle (`triton_kernel.cpp`) -/

/-- Modelled from the spec: the class declaration (`triton_jit/triton_kernel.h`) is
not among the sources.  The fields are those the member functions use: the
artifact directory and kernel name, the declared metadata (required shared-memory
bytes and target architecture, unsigned 32-bit quantities), and the
runtime-loaded state: the loaded flag and the module and function references,
`none` while never handed to the driver.  The driver writes the references
through pointers to the members, so after `cuModuleLoad` or
`cuModuleGetFunction` the member holds the out value of the call, failed or not. -/
structure TritonKernel where
  dir_ : String
  kernel_name_ : String
  shared_ : Nat
  arch_ : Nat
  mod_ : Option Int
  fn_ : Option Int
  loaded_ : Bool
  deriving DecidableEq, Repr

/-- The handle the constructor builds from the metadata values `shared` and
`target.arch` (reading the sidecar file is outside the model): not loaded, no
module and no function. -/
def TritonKernel.create (dir kernel_name : String) (shared arch : Nat) : TritonKernel :=
  { dir_ := dir, kernel_name_ := kernel_name, shared_ := shared, arch_ := arch,
    mod_ := none, fn_ := none, loaded_ := false }

/-- Path of the binary: directory, a slash, the kernel name and `.cubin`. -/
def TritonKernel.cubin_path (k : TritonKernel) : String :=
  k.dir_ ++ "/" ++ k.kernel_name_ ++ ".cubin"

/-- Result of an operation on a handle: how it ended, the handle and the world it left. -/
structure Outcome where
  result : Except Error Unit
  kernel : TritonKernel
  world : World

/-- The ceiling test `this->shared_ > shared_optin`: the `int` is converted to
`unsigned int` for the comparison. -/
def exceeds_ceiling (shared : Nat) (shared_optin : Int) : Bool :=
  decide (shared > toUInt32 shared_optin)

/-- The opt-in test `this->shared_ > 49152 && shared_optin > 49152`. -/
def needs_optin (shared : Nat) (shared_optin : Int) : Bool :=
  decide (shared > 49152) && decide (shared_optin > 49152)

/-- The member function `TritonKernel::lazy_init_handle` (the spec's `ensure_loaded`). -/
def lazy_init_handle (D : Driver) (k : TritonKernel) (w : World) : Outcome :=
  if k.loaded_ then ⟨.ok (), k, w⟩ else
  -- check cuda arch
  let r1 := D .cuCtxGetDevice
  let w1 := after D w .cuCtxGetDevice
  match checkCudaErrors r1.status with
  | .error e => ⟨.error e, k, w1⟩
  | .ok _ =>
  let device_index := r1.out
  let c2 := Call.cuDeviceGetAttribute .COMPUTE_CAPABILITY_MAJOR device_index
  let r2 := D c2
  let w2 := after D w1 c2
  match checkCudaErrors r2.status with
  | .error e => ⟨.error e, k, w2⟩
  | .ok _ =>
  let major := r2.out
  let c3 := Call.cuDeviceGetAttribute .COMPUTE_CAPABILITY_MINOR device_index
  let r3 := D c3
  let w3 := after D w2 c3
  match checkCudaErrors r3.status with
  | .error e => ⟨.error e, k, w3⟩
  | .ok _ =>
  let minor := r3.out
  let arch := toUInt32 (wrapInt32 (major * 10 + minor))
  if arch ≠ k.arch_ then ⟨.error .ArchitectureMismatchError, k, w3⟩ else
  -- load module
  let c4 := Call.cuModuleLoad k.cubin_path
  let r4 := D c4
  let w4 := after D w3 c4
  -- the call is handed `&this->mod_`: the member holds `r4.out` whatever the status
  let k4 := { k with mod_ := some r4.out }
  match checkCudaErrors r4.status with
  | .error e => ⟨.error e, k4, w4⟩
  | .ok _ =>
  -- get function
  let c5 := Call.cuModuleGetFunction r4.out k.kernel_name_
  let r5 := D c5
  let w5 := after D w4 c5
  -- the call is handed `&this->fn_`: the member holds `r5.out` whatever the status
  let k5 := { k4 with fn_ := some r5.out }
  match checkCudaErrors r5.status with
  | .error e => ⟨.error e, k5, w5⟩
  | .ok _ =>
  -- check required shared memory does not exceeds max shared memory per block
  let c6 := Call.cuDeviceGetAttribute .MAX_SHARED_MEMORY_PER_BLOCK_OPTIN device_index
  let r6 := D c6
  let w6 := after D w5 c6
  let shared_optin := r6.out
  if exceeds_ceiling k.shared_ shared_optin then
    ⟨.error (.ResourceExceededError k.shared_ shared_optin), k5, w6⟩ else
  -- increase shared memory if required
  if needs_optin k.shared_ shared_optin then
    let c7 := Call.cuFuncSetCacheConfig r5.out .PREFER_SHARED
    let r7 := D c7
    let w7 := after D w6 c7
    match checkCudaErrors r7.status with
    | .error e => ⟨.error e, k5, w7⟩
    | .ok _ =>
    let c8 := Call.cuDeviceGetAttribute .MAX_SHARED_MEMORY_PER_MULTIPROCESSOR device_index
    let r8 := D c8
    let w8 := after D w7 c8
    match checkCudaErrors r8.status with
    | .error e => ⟨.error e, k5, w8⟩
    | .ok _ =>
    let c9 := Call.cuFuncGetAttribute .SHARED_SIZE_BYTES r5.out
    let r9 := D c9
    let w9 := after D w8 c9
    match checkCudaErrors r9.status with
    | .error e => ⟨.error e, k5, w9⟩
    | .ok _ =>
    let shared_static := r9.out
    let c10 := Call.cuFuncSetAttribute r5.out .MAX_DYNAMIC_SHARED_SIZE_BYTES
      (wrapInt32 (shared_optin - shared_static))
    let r10 := D c10
    let w10 := after D w9 c10
    match checkCudaErrors r10.status with
    | .error e => ⟨.error e, k5, w10⟩
    | .ok _ => ⟨.ok (), { k5 with loaded_ := true }, w10⟩
  else
    ⟨.ok (), { k5 with loaded_ := true }, w6⟩

/-- The member function `TritonKernel::launch`.  The block size `32 * num_warps`
is computed in `int` and converted to the unsigned parameter of `cuLaunchKernel`;
the function passed is the handle's `fn_` member. -/
def launch (D : Driver) (k : TritonKernel) (w : World) (grid_x grid_y grid_z : Nat)
    (num_warps : Int) (stream : Int) (args : List Int) : Outcome :=
  let o := lazy_init_handle D k w
  match o.result with
  | .error e => ⟨.error e, o.kernel, o.world⟩
  | .ok _ =>
  let c := Call.cuLaunchKernel (o.kernel.fn_.getD 0) grid_x grid_y grid_z
    (toUInt32 (wrapInt32 (32 * num_warps))) 1 1 o.kernel.shared_ stream args
  let r := D c
  let w1 := after D o.world c
  ⟨checkCudaErrors r.status, o.kernel, w1⟩

/-- The load procedure with the opt-in step gated on the requirement alone
(`this->shared_ > 49152`), the simplification the design notes ask about.  It is
`lazy_init_handle` with that one condition changed and nothing else. -/
def lazy_init_handle_requirement_only (D : Driver) (k : TritonKernel) (w : World) : Outcome :=
  if k.loaded_ then ⟨.ok (), k, w⟩ else
  let r1 := D .cuCtxGetDevice
  let w1 := after D w .cuCtxGetDevice
  match checkCudaErrors r1.status with
  | .error e => ⟨.error e, k, w1⟩
  | .ok _ =>
  let device_index := r1.out
  let c2 := Call.cuDeviceGetAttribute .COMPUTE_CAPABILITY_MAJOR device_index
  let r2 := D c2
  let w2 := after D w1 c2
  match checkCudaErrors r2.status with
  | .error e => ⟨.error e, k, w2⟩
  | .ok _ =>
  let major := r2.out
  let c3 := Call.cuDeviceGetAttribute .COMPUTE_CAPABILITY_MINOR device_index
  let r3 := D c3
  let w3 := after D w2 c3
  match checkCudaErrors r3.status with
  | .error e => ⟨.error e, k, w3⟩
  | .ok _ =>
  let minor := r3.out
  let arch := toUInt32 (wrapInt32 (major * 10 + minor))
  if arch ≠ k.arch_ then ⟨.error .ArchitectureMismatchError, k, w3⟩ else
  let c4 := Call.cuModuleLoad k.cubin_path
  let r4 := D c4
  let w4 := after D w3 c4
  let k4 := { k with mod_ := some r4.out }
  match checkCudaErrors r4.status with
  | .error e => ⟨.error e, k4, w4⟩
  | .ok _ =>
  let c5 := Call.cuModuleGetFunction r4.out k.kernel_name_
  let r5 := D c5
  let w5 := after D w4 c5
  let k5 := { k4 with fn_ := some r5.out }
  match checkCudaErrors r5.status with
  | .error e => ⟨.error e, k5, w5⟩
  | .ok _ =>
  let c6 := Call.cuDeviceGetAttribute .MAX_SHARED_MEMORY_PER_BLOCK_OPTIN device_index
  let r6 := D c6
  let w6 := after D w5 c6
  let shared_optin := r6.out
  if exceeds_ceiling k.shared_ shared_optin then
    ⟨.error (.ResourceExceededError k.shared_ shared_optin), k5, w6⟩ else
  if decide (k.shared_ > 49152) then
    let c7 := Call.cuFuncSetCacheConfig r5.out .PREFER_SHARED
    let r7 := D c7
    let w7 := after D w6 c7
    match checkCudaErrors r7.status with
    | .error e => ⟨.error e, k5, w7⟩
    | .ok _ =>
    let c8 := Call.cuDeviceGetAttribute .MAX_SHARED_MEMORY_PER_MULTIPROCESSOR device_index
    let r8 := D c8
    let w8 := after D w7 c8
    match checkCudaErrors r8.status with
    | .error e => ⟨.error e, k5, w8⟩
    | .ok _ =>
    let c9 := Call.cuFuncGetAttribute .SHARED_SIZE_BYTES r5.out
    let r9 := D c9
    let w9 := after D w8 c9
    match checkCudaErrors r9.status with
    | .error e => ⟨.error e, k5, w9⟩
    | .ok _ =>
    let shared_static := r9.out
    let c10 := Call.cuFuncSetAttribute r5.out .MAX_DYNAMIC_SHARED_SIZE_BYTES
      (wrapInt32 (shared_optin - shared_static))
    let r10 := D c10
    let w10 := after D w9 c10
    match checkCudaErrors r10.status with
    | .error e => ⟨.error e, k5, w10⟩
    | .ok _ => ⟨.ok (), { k5 with loaded_ := true }, w10⟩
  else
    ⟨.ok (), { k5 with loaded_ := true }, w6⟩

/-! ## Vocabulary of the properties -/

/-- The module-load step. -/
def isModuleLoad : Call → Bool
  | .cuModuleLoad _ => true
  | _ => false

/-- The kernel enqueue. -/
def isEnqueue : Call → Bool
  | .cuLaunchKernel .. => true
  | _ => false

/-- The calls `ensure_cuda_context` can issue. -/
def isBootstrap : Call → Bool
  | .cuCtxGetCurrent => true
  | .cudaGetDevice => true
  | .cuDeviceGet _ => true
  | .cuDevicePrimaryCtxRetain _ => true
  | .cuCtxSetCurrent _ => true
  | _ => false

/-- The runtime-loaded state is entirely unset: flag false, no module, no function. -/
def EntirelyUnset (k : TritonKernel) : Prop :=
  k.loaded_ = false ∧ k.mod_ = none ∧ k.fn_ = none

/-- The runtime-loaded state is entirely set: flag true, module and function present. -/
def EntirelySet (k : TritonKernel) : Prop :=
  k.loaded_ = true ∧ k.mod_.isSome = true ∧ k.fn_.isSome = true

instance (k : TritonKernel) : Decidable (EntirelyUnset k) := by
  unfold EntirelyUnset
  infer_instance

instance (k : TritonKernel) : Decidable (EntirelySet k) := by
  unfold EntirelySet
  infer_instance

/-- The device ordinal `ensure_cuda_context` asks `cuDeviceGet` for: the runtime's
current device when that query succeeds with a non-negative index, else `0`. -/
def bootstrap_ordinal (D : Driver) : Int :=
  if (D .cudaGetDevice).status = cudaSuccess ∧ (D .cudaGetDevice).out ≥ 0 then
    (D .cudaGetDevice).out
  else 0

/-! ## Sample devices and handles -/

/-- A device of compute capability `major.minor` with opt-in maximum `optin`, on
which every call succeeds; a loaded function uses `static` bytes of static shared
memory, the module handle is `11`, the function handle `22`, and the primary
context of device `d` is `100 + d`. -/
def demoDriver (major minor optin static : Int) : Driver := fun c =>
  match c with
  | .cuCtxGetDevice => ⟨0, 0⟩
  | .cuDeviceGetAttribute .COMPUTE_CAPABILITY_MAJOR _ => ⟨0, major⟩
  | .cuDeviceGetAttribute .COMPUTE_CAPABILITY_MINOR _ => ⟨0, minor⟩
  | .cuDeviceGetAttribute .MAX_SHARED_MEMORY_PER_BLOCK_OPTIN _ => ⟨0, optin⟩
  | .cuDeviceGetAttribute .MAX_SHARED_MEMORY_PER_MULTIPROCESSOR _ => ⟨0, 102400⟩
  | .cuModuleLoad _ => ⟨0, 11⟩
  | .cuModuleGetFunction _ _ => ⟨0, 22⟩
  | .cuFuncGetAttribute _ _ => ⟨0, static⟩
  | .cudaGetDevice => ⟨0, 1⟩
  | .cuDeviceGet ordinal => ⟨0, ordinal⟩
  | .cuDevicePrimaryCtxRetain dev => ⟨0, 100 + dev⟩
  | _ => ⟨0, 0⟩

/-- The device `demoDriver 8 0 101376 0`, except that the function lookup fails
with status 500 (named symbol not found), the function member then holding `0`. -/
def lookupFailDriver : Driver := fun c =>
  match c with
  | .cuModuleGetFunction _ _ => ⟨500, 0⟩
  | _ => demoDriver 8 0 101376 0 c

/-- The device `demoDriver 8 0 101376 0`, except that the opt-in maximum query
fails with status 1 (invalid value) and the variable it should have filled
holds `0`. -/
def optinFailDriver : Driver := fun c =>
  match c with
  | .cuDeviceGetAttribute .MAX_SHARED_MEMORY_PER_BLOCK_OPTIN _ => ⟨1, 0⟩
  | _ => demoDriver 8 0 101376 0 c

/-- The device `demoDriver 8 0 101376 0`, except that the compute-capability
major query fails with status 1 (invalid value). -/
def majorFailDriver : Driver := fun c =>
  match c with
  | .cuDeviceGetAttribute .COMPUTE_CAPABILITY_MAJOR _ => ⟨1, 0⟩
  | _ => demoDriver 8 0 101376 0 c

/-- A thread on which a context (handle `7`) is current and no call was made yet. -/
def readyWorld : World := { current := 7, trace := [] }

/-- A thread with no current context on which no call was made yet. -/
def bareWorld : World := { current := 0, trace := [] }

/-- A fresh handle declaring `shared` bytes and architecture `arch`. -/
def sampleKernel (shared arch : Nat) : TritonKernel :=
  TritonKernel.create "/cache/add" "add_kernel" shared arch

/-! ## Auxiliary facts -/

/-- Conversion to `unsigned int` keeps a value that fits. -/
theorem toUInt32_of_range (x : Int) (h0 : 0 ≤ x) (h1 : x < 4294967296) :
    ((toUInt32 x : Nat) : Int) = x := by
  unfold toUInt32
  rw [Int.emod_eq_of_lt h0 h1]
  exact Int.toNat_of_nonneg h0

/-- An `int` holds a value of its range unchanged. -/
theorem wrapInt32_of_range (x : Int) (h0 : -2147483648 ≤ x) (h1 : x < 2147483648) :
    wrapInt32 x = x := by
  unfold wrapInt32
  rw [Int.emod_eq_of_lt (by omega) (by omega)]
  omega

/-- Conversion to `unsigned int` never increases a non-negative value. -/
theorem toUInt32_le_self (x : Int) (h0 : 0 ≤ x) : ((toUInt32 x : Nat) : Int) ≤ x := by
  unfold toUInt32
  have h : 0 ≤ x % 4294967296 := Int.emod_nonneg x (by decide)
  rw [Int.toNat_of_nonneg h]
  omega

/-- The check passes exactly on the success status. -/
theorem checkCudaErrors_eq_ok (s : CUresult) (u : Unit) :
    checkCudaErrors s = .ok u ↔ s = CUDA_SUCCESS := by
  unfold checkCudaErrors
  split_ifs <;> simp_all

/-- The check throws exactly on a failure status, and then carries that status. -/
theorem checkCudaErrors_eq_error (s : CUresult) (e : Error) :
    checkCudaErrors s = .error e ↔ s ≠ CUDA_SUCCESS ∧ e = .DeviceError s := by
  unfold checkCudaErrors
  split_ifs with h
  · simp [h]
  · simp only [Except.error.injEq, ne_eq, h, not_false_eq_true, true_and]
    exact eq_comm

/-- On a loaded handle `lazy_init_handle` returns at once. -/
theorem lazy_init_handle_of_loaded (D : Driver) (k : TritonKernel) (w : World)
    (h : k.loaded_ = true) : lazy_init_handle D k w = ⟨.ok (), k, w⟩ := by
  unfold lazy_init_handle
  simp [h]

/-- A successful `lazy_init_handle` leaves the handle loaded. -/
theorem loaded_of_lazy_init_handle_ok (D : Driver) (k : TritonKernel) (w : World) :
    (lazy_init_handle D k w).result = .ok () →
    (lazy_init_handle D k w).kernel.loaded_ = true := by
  unfold lazy_init_handle
  simp only []
  split_ifs <;> (repeat' split) <;> simp_all

/-- The declared shared-memory requirement is never changed by the load. -/
theorem lazy_init_handle_shared (D : Driver) (k : TritonKernel) (w : World) :
    (lazy_init_handle D k w).kernel.shared_ = k.shared_ := by
  unfold lazy_init_handle
  simp only []
  split_ifs <;> (repeat' split) <;> simp_all

/-- The load only appends to the trace, never enqueues, and a successful load of a
handle that was not loaded issues the module load exactly once. -/
theorem lazy_init_handle_calls (D : Driver) (k : TritonKernel) (w : World) :
    (lazy_init_handle D k w).world.trace = w.trace ++ issued w (lazy_init_handle D k w).world ∧
      (issued w (lazy_init_handle D k w).world).countP isEnqueue = 0 ∧
      (k.loaded_ = false → (lazy_init_handle D k w).result = .ok () →
        (issued w (lazy_init_handle D k w).world).countP isModuleLoad = 1) := by
  unfold lazy_init_handle
  simp only []
  split_ifs <;> (repeat' split) <;>
    simp_all [after, issued, isEnqueue, isModuleLoad, List.countP_cons]

/-- Every call succeeds on the sample device. -/
theorem demoDriver_status (major minor optin static : Int) (c : Call) :
    (demoDriver major minor optin static c).status = CUDA_SUCCESS := by
  cases c with
  | cuDeviceGetAttribute attrib dev => cases attrib <;> rfl
  | _ => rfl

/-! ## The claims -/

/-- C1: `ensure_loaded` is idempotent.  Whenever a first `lazy_init_handle`
succeeds, a second one (under any driver) issues no call, returns successfully
and leaves handle and world as they are.  Hence of two consecutive launches the
second issues the enqueue and nothing else; over both launches of a handle that
was not loaded the module load is issued exactly once and the enqueue exactly
twice, and each launch returns what its enqueue returns. -/
theorem C1_ensure_loaded_idempotent (D1 D2 : Driver) (k : TritonKernel) (w : World)
    (gx gy gz : Nat) (nw stream : Int) (args : List Int)
    (gx2 gy2 gz2 : Nat) (nw2 stream2 : Int) (args2 : List Int)
    (hok : (lazy_init_handle D1 k w).result = .ok ()) :
    (lazy_init_handle D2 (lazy_init_handle D1 k w).kernel (lazy_init_handle D1 k w).world
        = ⟨.ok (), (lazy_init_handle D1 k w).kernel, (lazy_init_handle D1 k w).world⟩) ∧
    issued (launch D1 k w gx gy gz nw stream args).world
        (launch D2 (launch D1 k w gx gy gz nw stream args).kernel
          (launch D1 k w gx gy gz nw stream args).world gx2 gy2 gz2 nw2 stream2 args2).world
      = [.cuLaunchKernel ((lazy_init_handle D1 k w).kernel.fn_.getD 0) gx2 gy2 gz2
          (toUInt32 (wrapInt32 (32 * nw2))) 1 1 k.shared_ stream2 args2] ∧
    (launch D2 (launch D1 k w gx gy gz nw stream args).kernel
          (launch D1 k w gx gy gz nw stream args).world gx2 gy2 gz2 nw2 stream2 args2).kernel
      = (lazy_init_handle D1 k w).kernel ∧
    (k.loaded_ = false →
      (issued w (launch D2 (launch D1 k w gx gy gz nw stream args).kernel
          (launch D1 k w gx gy gz nw stream args).world gx2 gy2 gz2 nw2 stream2 args2).world).countP
        isModuleLoad = 1) ∧
    (issued w (launch D2 (launch D1 k w gx gy gz nw stream args).kernel
          (launch D1 k w gx gy gz nw stream args).world gx2 gy2 gz2 nw2 stream2 args2).world).countP
        isEnqueue = 2 ∧
    (launch D1 k w gx gy gz nw stream args).result
      = checkCudaErrors (D1 (.cuLaunchKernel ((lazy_init_handle D1 k w).kernel.fn_.getD 0)
          gx gy gz (toUInt32 (wrapInt32 (32 * nw))) 1 1 k.shared_ stream args)).status ∧
    (launch D2 (launch D1 k w gx gy gz nw stream args).kernel
          (launch D1 k w gx gy gz nw stream args).world gx2 gy2 gz2 nw2 stream2 args2).result
      = checkCudaErrors (D2 (.cuLaunchKernel ((lazy_init_handle D1 k w).kernel.fn_.getD 0)
          gx2 gy2 gz2 (toUInt32 (wrapInt32 (32 * nw2))) 1 1 k.shared_ stream2 args2)).status := by
  have hl := loaded_of_lazy_init_handle_ok D1 k w hok
  have hs := lazy_init_handle_shared D1 k w
  obtain ⟨ht, he, hm⟩ := lazy_init_handle_calls D1 k w
  have h1 : launch D1 k w gx gy gz nw stream args
      = ⟨checkCudaErrors (D1 (.cuLaunchKernel ((lazy_init_handle D1 k w).kernel.fn_.getD 0)
          gx gy gz (toUInt32 (wrapInt32 (32 * nw))) 1 1 k.shared_ stream args)).status,
        (lazy_init_handle D1 k w).kernel,
        after D1 (lazy_init_handle D1 k w).world
          (.cuLaunchKernel ((lazy_init_handle D1 k w).kernel.fn_.getD 0)
          gx gy gz (toUInt32 (wrapInt32 (32 * nw))) 1 1 k.shared_ stream args)⟩ := by
    simp only [launch, hok, hs]
  rw [h1]
  simp only [launch, lazy_init_handle_of_loaded _ _ _ hl, hs]
  refine ⟨trivial, ?_, trivial, ?_, ?_, trivial, trivial⟩
  · simp [issued, after]
  · intro hnl
    have := hm hnl hok
    simp only [issued, after] at this ⊢
    rw [ht]
    simp only [issued, List.append_assoc, List.drop_left, List.countP_append, this]
    simp [isModuleLoad, List.countP_cons]
  · simp only [issued, after] at he ⊢
    rw [ht]
    simp only [issued, List.append_assoc, List.drop_left, List.countP_append, he]
    simp [isEnqueue, List.countP_cons]

/-- Witness for C1: a kernel declaring `shared = 0` and architecture 80 on a device
of capability 8.0, launched twice. -/
theorem C1_ensure_loaded_idempotent_witness :
    (lazy_init_handle (demoDriver 8 0 101376 0) (sampleKernel 0 80) readyWorld).result = .ok () ∧
    (issued readyWorld (launch (demoDriver 8 0 101376 0)
        (launch (demoDriver 8 0 101376 0) (sampleKernel 0 80) readyWorld 2 3 1 4 0 []).kernel
        (launch (demoDriver 8 0 101376 0) (sampleKernel 0 80) readyWorld 2 3 1 4 0 []).world
        2 3 1 4 0 []).world).countP isModuleLoad = 1 :=
  ⟨rfl, (C1_ensure_loaded_idempotent (demoDriver 8 0 101376 0) (demoDriver 8 0 101376 0)
    (sampleKernel 0 80) readyWorld 2 3 1 4 0 [] 2 3 1 4 0 [] rfl).2.2.2.1 rfl⟩


/-- C2: architecture check.  On a handle that is not loaded, when the device
queries succeed and report compute capability `major.minor` (a non-negative
`int` value `major * 10 + minor`) different from the declared architecture,
`lazy_init_handle` fails with the architecture-mismatch error after exactly the
three device queries (so no module load and no function lookup), and the handle
is unchanged, hence still not loaded. -/
theorem C2_architecture_mismatch (D : Driver) (k : TritonKernel) (w : World)
    (dev major minor : Int)
    (hnl : k.loaded_ = false)
    (hdev : D .cuCtxGetDevice = ⟨CUDA_SUCCESS, dev⟩)
    (hmaj : D (.cuDeviceGetAttribute .COMPUTE_CAPABILITY_MAJOR dev) = ⟨CUDA_SUCCESS, major⟩)
    (hmin : D (.cuDeviceGetAttribute .COMPUTE_CAPABILITY_MINOR dev) = ⟨CUDA_SUCCESS, minor⟩)
    (h0 : 0 ≤ major * 10 + minor) (h1 : major * 10 + minor < 2147483648)
    (hne : major * 10 + minor ≠ (k.arch_ : Int)) :
    (lazy_init_handle D k w).result = .error .ArchitectureMismatchError ∧
    issued w (lazy_init_handle D k w).world
      = [.cuCtxGetDevice, .cuDeviceGetAttribute .COMPUTE_CAPABILITY_MAJOR dev,
          .cuDeviceGetAttribute .COMPUTE_CAPABILITY_MINOR dev] ∧
    (lazy_init_handle D k w).kernel = k ∧
    (lazy_init_handle D k w).kernel.loaded_ = false := by
  have harch : toUInt32 (wrapInt32 (major * 10 + minor)) ≠ k.arch_ := by
    intro h
    apply hne
    rw [← h, wrapInt32_of_range _ (by omega) h1]
    exact (toUInt32_of_range _ h0 (by omega)).symm
  unfold lazy_init_handle
  simp [hnl, hdev, hmaj, hmin, checkCudaErrors, harch, issued, after]

/-- Witness for C2: declared architecture 80 on a device reporting 7.5. -/
theorem C2_architecture_mismatch_witness :
    (lazy_init_handle (demoDriver 7 5 65536 0) (sampleKernel 0 80) readyWorld).result
      = .error .ArchitectureMismatchError ∧
    (lazy_init_handle (demoDriver 7 5 65536 0) (sampleKernel 0 80) readyWorld).kernel.loaded_
      = false :=
  have h := C2_architecture_mismatch (demoDriver 7 5 65536 0) (sampleKernel 0 80) readyWorld
    0 7 5 rfl rfl rfl rfl (by decide) (by decide) (by decide)
  ⟨h.1, h.2.2.2⟩

/-- C3: shared-memory ceiling.  On a handle that is not loaded, when the
architecture matches, module load and function lookup succeed, and the declared
requirement exceeds the opt-in maximum `m` found by the query, `lazy_init_handle`
fails with the resource-exceeded error and the handle stays not loaded; a launch
returns the same error having issued the six load calls and no enqueue. -/
theorem C3_shared_memory_ceiling (D : Driver) (k : TritonKernel) (w : World)
    (dev major minor md fn m : Int)
    (gx gy gz : Nat) (nw stream : Int) (args : List Int)
    (hnl : k.loaded_ = false)
    (hdev : D .cuCtxGetDevice = ⟨CUDA_SUCCESS, dev⟩)
    (hmaj : D (.cuDeviceGetAttribute .COMPUTE_CAPABILITY_MAJOR dev) = ⟨CUDA_SUCCESS, major⟩)
    (hmin : D (.cuDeviceGetAttribute .COMPUTE_CAPABILITY_MINOR dev) = ⟨CUDA_SUCCESS, minor⟩)
    (harch : toUInt32 (wrapInt32 (major * 10 + minor)) = k.arch_)
    (hmod : D (.cuModuleLoad k.cubin_path) = ⟨CUDA_SUCCESS, md⟩)
    (hfn : D (.cuModuleGetFunction md k.kernel_name_) = ⟨CUDA_SUCCESS, fn⟩)
    (hm : (D (.cuDeviceGetAttribute .MAX_SHARED_MEMORY_PER_BLOCK_OPTIN dev)).out = m)
    (hm0 : 0 ≤ m) (hm1 : m < 2147483648)
    (hs : (k.shared_ : Int) > m) :
    (lazy_init_handle D k w).result = .error (.ResourceExceededError k.shared_ m) ∧
    (lazy_init_handle D k w).kernel.loaded_ = false ∧
    (launch D k w gx gy gz nw stream args).result
      = .error (.ResourceExceededError k.shared_ m) ∧
    (launch D k w gx gy gz nw stream args).kernel.loaded_ = false ∧
    issued w (launch D k w gx gy gz nw stream args).world
      = [.cuCtxGetDevice, .cuDeviceGetAttribute .COMPUTE_CAPABILITY_MAJOR dev,
          .cuDeviceGetAttribute .COMPUTE_CAPABILITY_MINOR dev,
          .cuModuleLoad k.cubin_path, .cuModuleGetFunction md k.kernel_name_,
          .cuDeviceGetAttribute .MAX_SHARED_MEMORY_PER_BLOCK_OPTIN dev] ∧
    (issued w (launch D k w gx gy gz nw stream args).world).countP isEnqueue = 0 := by
  have hc : exceeds_ceiling k.shared_ m = true := by
    unfold exceeds_ceiling
    have := toUInt32_of_range m hm0 (by omega)
    simp only [decide_eq_true_eq]
    omega
  have key : lazy_init_handle D k w
      = ⟨.error (.ResourceExceededError k.shared_ m),
          { k with mod_ := some md, fn_ := some fn },
          ⟨w.current, w.trace ++ [.cuCtxGetDevice,
            .cuDeviceGetAttribute .COMPUTE_CAPABILITY_MAJOR dev,
            .cuDeviceGetAttribute .COMPUTE_CAPABILITY_MINOR dev,
            .cuModuleLoad k.cubin_path, .cuModuleGetFunction md k.kernel_name_,
            .cuDeviceGetAttribute .MAX_SHARED_MEMORY_PER_BLOCK_OPTIN dev]⟩⟩ := by
    unfold lazy_init_handle
    simp [hnl, hdev, hmaj, hmin, harch, hmod, hfn, hm, hc, checkCudaErrors, after]
  simp only [launch, key]
  simp [hnl, issued, isEnqueue, List.countP_cons]

/-- Witness for C3: a requirement of 200000 bytes on a device whose opt-in
maximum is 101376 bytes. -/
theorem C3_shared_memory_ceiling_witness :
    (launch (demoDriver 8 0 101376 0) (sampleKernel 200000 80) readyWorld 2 3 1 4 0 []).result
      = .error (.ResourceExceededError 200000 101376) ∧
    (issued readyWorld
      (launch (demoDriver 8 0 101376 0) (sampleKernel 200000 80) readyWorld 2 3 1 4 0 []).world).countP
        isEnqueue = 0 :=
  have h := C3_shared_memory_ceiling (demoDriver 8 0 101376 0) (sampleKernel 200000 80)
    readyWorld 0 8 0 11 22 101376 2 3 1 4 0 [] rfl rfl rfl rfl (by decide) rfl rfl rfl
    (by decide) (by decide) (by decide)
  ⟨h.2.2.1, h.2.2.2.2.2⟩

/-- C4: shared-memory opt-in.  On a handle that is not loaded, with a declared
requirement above 49152 bytes, an opt-in maximum `m` above 49152 bytes that is
no smaller than the requirement, a matching architecture and the driver calls
before the last one succeeding, `lazy_init_handle` issues, after the six load
calls, the cache-preference call with prefer-shared on the resolved function,
the per-multiprocessor query, the static-size query, and last the attribute
call setting the maximum dynamic shared size to `m` minus the static size.
When that call succeeds as well, it returns successfully with the handle
loaded; the flag is set only after it, for when it fails the handle is not
loaded. -/
theorem C4_shared_memory_optin (D : Driver) (k : TritonKernel) (w : World)
    (dev major minor md fn m st : Int)
    (hnl : k.loaded_ = false)
    (hall : ∀ c, c ≠ .cuFuncSetAttribute fn .MAX_DYNAMIC_SHARED_SIZE_BYTES (m - st) →
      (D c).status = CUDA_SUCCESS)
    (hdev : (D .cuCtxGetDevice).out = dev)
    (hmaj : (D (.cuDeviceGetAttribute .COMPUTE_CAPABILITY_MAJOR dev)).out = major)
    (hmin : (D (.cuDeviceGetAttribute .COMPUTE_CAPABILITY_MINOR dev)).out = minor)
    (harch : toUInt32 (wrapInt32 (major * 10 + minor)) = k.arch_)
    (hmod : (D (.cuModuleLoad k.cubin_path)).out = md)
    (hfn : (D (.cuModuleGetFunction md k.kernel_name_)).out = fn)
    (hm : (D (.cuDeviceGetAttribute .MAX_SHARED_MEMORY_PER_BLOCK_OPTIN dev)).out = m)
    (hst : (D (.cuFuncGetAttribute .SHARED_SIZE_BYTES fn)).out = st)
    (hs : k.shared_ > 49152) (hm49 : m > 49152) (hsm : (k.shared_ : Int) ≤ m)
    (hm1 : m < 2147483648) (hst0 : 0 ≤ st) (hst1 : st < 2147483648) :
    issued w (lazy_init_handle D k w).world
      = [.cuCtxGetDevice, .cuDeviceGetAttribute .COMPUTE_CAPABILITY_MAJOR dev,
          .cuDeviceGetAttribute .COMPUTE_CAPABILITY_MINOR dev,
          .cuModuleLoad k.cubin_path, .cuModuleGetFunction md k.kernel_name_,
          .cuDeviceGetAttribute .MAX_SHARED_MEMORY_PER_BLOCK_OPTIN dev,
          .cuFuncSetCacheConfig fn .PREFER_SHARED,
          .cuDeviceGetAttribute .MAX_SHARED_MEMORY_PER_MULTIPROCESSOR dev,
          .cuFuncGetAttribute .SHARED_SIZE_BYTES fn,
          .cuFuncSetAttribute fn .MAX_DYNAMIC_SHARED_SIZE_BYTES (m - st)] ∧
    ((D (.cuFuncSetAttribute fn .MAX_DYNAMIC_SHARED_SIZE_BYTES (m - st))).status = CUDA_SUCCESS →
      (lazy_init_handle D k w).result = .ok () ∧
      (lazy_init_handle D k w).kernel.loaded_ = true) ∧
    ((D (.cuFuncSetAttribute fn .MAX_DYNAMIC_SHARED_SIZE_BYTES (m - st))).status ≠ CUDA_SUCCESS →
      (lazy_init_handle D k w).kernel.loaded_ = false) := by
  have hc : exceeds_ceiling k.shared_ m = false := by
    unfold exceeds_ceiling
    have := toUInt32_of_range m (by omega) (by omega)
    simp only [decide_eq_false_iff_not]
    omega
  have hn : needs_optin k.shared_ m = true := by
    unfold needs_optin
    simp [hs, hm49]
  have hw : wrapInt32 (m - st) = m - st := wrapInt32_of_range _ (by omega) (by omega)
  have s1 := hall .cuCtxGetDevice (by simp)
  have s2 := hall (.cuDeviceGetAttribute .COMPUTE_CAPABILITY_MAJOR dev) (by simp)
  have s3 := hall (.cuDeviceGetAttribute .COMPUTE_CAPABILITY_MINOR dev) (by simp)
  have s4 := hall (.cuModuleLoad k.cubin_path) (by simp)
  have s5 := hall (.cuModuleGetFunction md k.kernel_name_) (by simp)
  have s7 := hall (.cuFuncSetCacheConfig fn .PREFER_SHARED) (by simp)
  have s8 := hall (.cuDeviceGetAttribute .MAX_SHARED_MEMORY_PER_MULTIPROCESSOR dev) (by simp)
  have s9 := hall (.cuFuncGetAttribute .SHARED_SIZE_BYTES fn) (by simp)
  unfold lazy_init_handle
  by_cases h10 : (D (.cuFuncSetAttribute fn .MAX_DYNAMIC_SHARED_SIZE_BYTES (m - st))).status
      = CUDA_SUCCESS
  · simp [hnl, s1, s2, s3, s4, s5, s7, s8, s9, h10, hdev, hmaj, hmin, harch, hmod, hfn, hm,
      hst, hc, hn, hw, checkCudaErrors, after, issued]
  · simp [hnl, s1, s2, s3, s4, s5, s7, s8, s9, h10, hdev, hmaj, hmin, harch, hmod, hfn, hm,
      hst, hc, hn, hw, checkCudaErrors, after, issued]

/-- Witness for C4: a requirement of 70000 bytes on a device whose opt-in maximum
is 99000 bytes, the function using 1024 bytes of static shared memory: the
attribute is set to `99000 - 1024` and the handle is loaded. -/
theorem C4_shared_memory_optin_witness :
    issued readyWorld
        (lazy_init_handle (demoDriver 8 0 99000 1024) (sampleKernel 70000 80) readyWorld).world
      = [.cuCtxGetDevice, .cuDeviceGetAttribute .COMPUTE_CAPABILITY_MAJOR 0,
          .cuDeviceGetAttribute .COMPUTE_CAPABILITY_MINOR 0,
          .cuModuleLoad "/cache/add/add_kernel.cubin",
          .cuModuleGetFunction 11 "add_kernel",
          .cuDeviceGetAttribute .MAX_SHARED_MEMORY_PER_BLOCK_OPTIN 0,
          .cuFuncSetCacheConfig 22 .PREFER_SHARED,
          .cuDeviceGetAttribute .MAX_SHARED_MEMORY_PER_MULTIPROCESSOR 0,
          .cuFuncGetAttribute .SHARED_SIZE_BYTES 22,
          .cuFuncSetAttribute 22 .MAX_DYNAMIC_SHARED_SIZE_BYTES (99000 - 1024)] ∧
    (lazy_init_handle (demoDriver 8 0 99000 1024) (sampleKernel 70000 80)
      readyWorld).kernel.loaded_ = true :=
  have h := C4_shared_memory_optin (demoDriver 8 0 99000 1024) (sampleKernel 70000 80)
    readyWorld 0 8 0 11 22 99000 1024 rfl
    (fun c _ => demoDriver_status 8 0 99000 1024 c)
    rfl rfl rfl (by decide) rfl rfl rfl rfl
    (by decide) (by decide) (by decide) (by decide) (by decide) (by decide)
  ⟨h.1, (h.2.1 rfl).2⟩

/-- C5: launch geometry.  Whenever `lazy_init_handle` succeeds, `launch` issues
after it exactly one call, the enqueue, and no other enqueue before it: on the
handle's function (the one the lookup of this load resolved when the handle was
not loaded, the cached one otherwise), with grid `(grid_x, grid_y, grid_z)`,
block `(32 * num_warps, 1, 1)` as an unsigned 32-bit value, the declared
shared-memory bytes, the given stream and the given arguments; the launch
returns what the enqueue returns.  For a warp count with
`0 <= 32 * num_warps < 2^31` the block size is `32 * num_warps` itself. -/
theorem C5_launch_geometry (D : Driver) (k : TritonKernel) (w : World)
    (grid_x grid_y grid_z : Nat) (num_warps stream : Int) (args : List Int)
    (hok : (lazy_init_handle D k w).result = .ok ()) :
    issued (lazy_init_handle D k w).world
        (launch D k w grid_x grid_y grid_z num_warps stream args).world
      = [.cuLaunchKernel ((lazy_init_handle D k w).kernel.fn_.getD 0) grid_x grid_y grid_z
          (toUInt32 (wrapInt32 (32 * num_warps))) 1 1 k.shared_ stream args] ∧
    (issued w (launch D k w grid_x grid_y grid_z num_warps stream args).world).countP
      isEnqueue = 1 ∧
    (k.loaded_ = false → (lazy_init_handle D k w).kernel.fn_
      = some (D (.cuModuleGetFunction (D (.cuModuleLoad k.cubin_path)).out k.kernel_name_)).out) ∧
    (k.loaded_ = true → (lazy_init_handle D k w).kernel.fn_ = k.fn_) ∧
    (launch D k w grid_x grid_y grid_z num_warps stream args).result
      = checkCudaErrors (D (.cuLaunchKernel ((lazy_init_handle D k w).kernel.fn_.getD 0)
          grid_x grid_y grid_z (toUInt32 (wrapInt32 (32 * num_warps))) 1 1 k.shared_
          stream args)).status ∧
    (0 ≤ num_warps → 32 * num_warps < 2147483648 →
      ((toUInt32 (wrapInt32 (32 * num_warps)) : Nat) : Int) = 32 * num_warps) := by
  have hs := lazy_init_handle_shared D k w
  obtain ⟨ht, he, -⟩ := lazy_init_handle_calls D k w
  refine ⟨?_, ?_, ?_, ?_, ?_, ?_⟩
  · simp [launch, hok, hs, issued, after]
  · simp only [launch, hok, hs, issued, after] at he ⊢
    rw [ht]
    simp only [issued, List.append_assoc, List.drop_left, List.countP_append, he]
    simp [isEnqueue, List.countP_cons]
  · intro hnl
    revert hok
    unfold lazy_init_handle
    simp only []
    split_ifs <;> (repeat' split) <;> simp_all
  · intro hl
    rw [lazy_init_handle_of_loaded D k w hl]
  · simp [launch, hok, hs]
  · intro h0 h1
    rw [wrapInt32_of_range _ (by omega) h1]
    exact toUInt32_of_range _ (by omega) (by omega)

/-- Witness for C5: `launch(2,3,1,4,stream,args)` enqueues with grid `(2,3,1)` and
block `(128,1,1)`. -/
theorem C5_launch_geometry_witness :
    issued (lazy_init_handle (demoDriver 8 0 101376 0) (sampleKernel 0 80) readyWorld).world
        (launch (demoDriver 8 0 101376 0) (sampleKernel 0 80) readyWorld 2 3 1 4 5 [6, 7]).world
      = [.cuLaunchKernel 22 2 3 1 128 1 1 0 5 [6, 7]] :=
  (C5_launch_geometry (demoDriver 8 0 101376 0) (sampleKernel 0 80) readyWorld
    2 3 1 4 5 [6, 7] rfl).1

/-- C7, at the failing input: the opt-in maximum query returns status 1, yet
`lazy_init_handle` signals nothing, goes on past that call and marks the handle
loaded.  The sibling capability query failing with the same status does raise
the device error with that status and stops the load. -/
theorem C7_optin_query_status_ignored :
    (optinFailDriver (.cuDeviceGetAttribute .MAX_SHARED_MEMORY_PER_BLOCK_OPTIN 0)).status = 1 ∧
    (lazy_init_handle optinFailDriver (sampleKernel 0 80) readyWorld).result = .ok () ∧
    (lazy_init_handle optinFailDriver (sampleKernel 0 80) readyWorld).kernel.loaded_ = true ∧
    issued readyWorld (lazy_init_handle optinFailDriver (sampleKernel 0 80) readyWorld).world
      = [.cuCtxGetDevice, .cuDeviceGetAttribute .COMPUTE_CAPABILITY_MAJOR 0,
          .cuDeviceGetAttribute .COMPUTE_CAPABILITY_MINOR 0,
          .cuModuleLoad "/cache/add/add_kernel.cubin",
          .cuModuleGetFunction 11 "add_kernel",
          .cuDeviceGetAttribute .MAX_SHARED_MEMORY_PER_BLOCK_OPTIN 0] ∧
    (lazy_init_handle majorFailDriver (sampleKernel 0 80) readyWorld).result
      = .error (.DeviceError 1) ∧
    issued readyWorld (lazy_init_handle majorFailDriver (sampleKernel 0 80) readyWorld).world
      = [.cuCtxGetDevice, .cuDeviceGetAttribute .COMPUTE_CAPABILITY_MAJOR 0] := by
  refine ⟨rfl, rfl, rfl, ?_, rfl, ?_⟩ <;> decide

/-- C8, refuted as stated: a first launch on a thread with no current context, on
a device that answers every call with success, issues the current-device query
first, never issues a call of the context bootstrap, and issues the capability
queries, the module load and the enqueue while no context is current. -/
theorem C8_no_bootstrap_in_first_launch :
    (launch (demoDriver 8 0 101376 0) (sampleKernel 0 80) bareWorld 2 3 1 4 0 []).world
      = { current := 0,
          trace := [.cuCtxGetDevice, .cuDeviceGetAttribute .COMPUTE_CAPABILITY_MAJOR 0,
            .cuDeviceGetAttribute .COMPUTE_CAPABILITY_MINOR 0,
            .cuModuleLoad "/cache/add/add_kernel.cubin",
            .cuModuleGetFunction 11 "add_kernel",
            .cuDeviceGetAttribute .MAX_SHARED_MEMORY_PER_BLOCK_OPTIN 0,
            .cuLaunchKernel 22 2 3 1 128 1 1 0 0 []] } ∧
    (ensure_cuda_context (demoDriver 8 0 101376 0) bareWorld).world.trace.head?
      = some .cuCtxGetCurrent := by
  decide

/-- C8, amended: `lazy_init_handle` does not invoke the context bootstrap.  On a
handle that is not loaded its first call is the current-device query, none of
its calls is one of the bootstrap, and it leaves the current context of the
thread as it found it. -/
theorem C8_ensure_loaded_leaves_context (D : Driver) (k : TritonKernel) (w : World)
    (hnl : k.loaded_ = false) :
    (issued w (lazy_init_handle D k w).world).head? = some .cuCtxGetDevice ∧
    (∀ c ∈ issued w (lazy_init_handle D k w).world, isBootstrap c = false) ∧
    (lazy_init_handle D k w).world.current = w.current := by
  unfold lazy_init_handle
  simp only []
  split_ifs <;> (repeat' split) <;> simp_all [issued, after, isBootstrap]

/-- Witness for C8 (amended): a fresh handle on a thread with no current context. -/
theorem C8_ensure_loaded_leaves_context_witness :
    (sampleKernel 0 80).loaded_ = false ∧
    (lazy_init_handle (demoDriver 8 0 101376 0) (sampleKernel 0 80) bareWorld).world.current = 0 :=
  ⟨rfl, (C8_ensure_loaded_leaves_context (demoDriver 8 0 101376 0) (sampleKernel 0 80)
    bareWorld rfl).2.2⟩


/-- C9: what `ensure_cuda_context` does, by the ambient state.  With the
current-context query succeeding: if a context is current it returns
successfully having issued that query alone and leaves the context as it is;
if none is current it asks the runtime for its device, looks up the device of
`bootstrap_ordinal` (the runtime's index when that query succeeded with a
non-negative index, else 0) and, those calls succeeding, retains the primary
context of exactly that device and sets exactly that context current, issuing
nothing else.  On a driver whose successful retain of that device yields a
non-null context, a context is current whenever it returns successfully. -/
theorem C9_ensure_context_paths (D : Driver) (w : World)
    (hq : (D .cuCtxGetCurrent).status = CUDA_SUCCESS) :
    (w.current ≠ 0 →
      (ensure_cuda_context D w).result = .ok () ∧
      issued w (ensure_cuda_context D w).world = [.cuCtxGetCurrent] ∧
      (ensure_cuda_context D w).world.current = w.current) ∧
    (w.current = 0 →
      [.cuCtxGetCurrent, .cudaGetDevice, .cuDeviceGet (bootstrap_ordinal D)]
        <+: issued w (ensure_cuda_context D w).world ∧
      ((D (.cuDeviceGet (bootstrap_ordinal D))).status = CUDA_SUCCESS →
        (D (.cuDevicePrimaryCtxRetain (D (.cuDeviceGet (bootstrap_ordinal D))).out)).status
          = CUDA_SUCCESS →
        (D (.cuCtxSetCurrent (D (.cuDevicePrimaryCtxRetain
          (D (.cuDeviceGet (bootstrap_ordinal D))).out)).out)).status = CUDA_SUCCESS →
        (ensure_cuda_context D w).result = .ok () ∧
        issued w (ensure_cuda_context D w).world
          = [.cuCtxGetCurrent, .cudaGetDevice, .cuDeviceGet (bootstrap_ordinal D),
              .cuDevicePrimaryCtxRetain (D (.cuDeviceGet (bootstrap_ordinal D))).out,
              .cuCtxSetCurrent (D (.cuDevicePrimaryCtxRetain
                (D (.cuDeviceGet (bootstrap_ordinal D))).out)).out] ∧
        (ensure_cuda_context D w).world.current
          = (D (.cuDevicePrimaryCtxRetain (D (.cuDeviceGet (bootstrap_ordinal D))).out)).out)) ∧
    (((D (.cuDevicePrimaryCtxRetain (D (.cuDeviceGet (bootstrap_ordinal D))).out)).status
          = CUDA_SUCCESS →
        (D (.cuDevicePrimaryCtxRetain (D (.cuDeviceGet (bootstrap_ordinal D))).out)).out ≠ 0) →
      (ensure_cuda_context D w).result = .ok () →
      (ensure_cuda_context D w).world.current ≠ 0) := by
  have hcall : (if (D .cudaGetDevice).status = cudaSuccess ∧ (D .cudaGetDevice).out ≥ 0 then
      Call.cuDeviceGet (D .cudaGetDevice).out else Call.cuDeviceGet 0)
      = Call.cuDeviceGet (bootstrap_ordinal D) := by
    unfold bootstrap_ordinal
    split_ifs <;> rfl
  refine ⟨?_, ?_, ?_⟩
  · intro hc
    unfold ensure_cuda_context
    simp [hq, hc, checkCudaErrors, issued, after]
  · intro hc
    unfold ensure_cuda_context
    simp only [hcall]
    refine ⟨?_, ?_⟩
    · simp only [hq, hc, checkCudaErrors]
      simp only [ne_eq, not_true_eq_false, if_true, if_false]
      split_ifs <;> simp [issued, after, List.prefix_iff_eq_append]
    · intro h2 h3 h4
      simp [hq, hc, h2, h3, h4, checkCudaErrors, issued, after]
  · intro hnn
    unfold ensure_cuda_context
    simp only [hcall]
    by_cases hc : w.current = 0
    · by_cases h2 : (D (.cuDeviceGet (bootstrap_ordinal D))).status = CUDA_SUCCESS
      · by_cases h3 : (D (.cuDevicePrimaryCtxRetain
            (D (.cuDeviceGet (bootstrap_ordinal D))).out)).status = CUDA_SUCCESS
        · by_cases h4 : (D (.cuCtxSetCurrent (D (.cuDevicePrimaryCtxRetain
              (D (.cuDeviceGet (bootstrap_ordinal D))).out)).out)).status = CUDA_SUCCESS
          · have h5 := hnn h3
            simp [hq, hc, h2, h3, h4, checkCudaErrors, after, h5]
          · simp [hq, hc, h2, h3, h4, checkCudaErrors]
        · simp [hq, hc, h2, h3, checkCudaErrors]
      · simp [hq, hc, h2, checkCudaErrors]
    · simp [hq, hc, checkCudaErrors, after]

/-- Witness for C9: on a thread with no current context, the runtime reporting
device 1, the primary context of device 1 is retained and set current. -/
theorem C9_ensure_context_paths_witness :
    (demoDriver 8 0 101376 0 .cuCtxGetCurrent).status = CUDA_SUCCESS ∧
    issued bareWorld (ensure_cuda_context (demoDriver 8 0 101376 0) bareWorld).world
      = [.cuCtxGetCurrent, .cudaGetDevice, .cuDeviceGet 1, .cuDevicePrimaryCtxRetain 1,
          .cuCtxSetCurrent 101] ∧
    (ensure_cuda_context (demoDriver 8 0 101376 0) bareWorld).world.current = 101 ∧
    (ensure_cuda_context (demoDriver 8 0 101376 0) bareWorld).world.current ≠ 0 :=
  have h := (C9_ensure_context_paths (demoDriver 8 0 101376 0) bareWorld rfl).2.1 rfl
  have h0 := (C9_ensure_context_paths (demoDriver 8 0 101376 0) bareWorld rfl).2.2
    (fun _ => by decide) rfl
  ⟨rfl, (h.2 rfl rfl rfl).2.1, (h.2 rfl rfl rfl).2.2, h0⟩

/-- C10: the second conjunct of the opt-in condition is redundant.  For a
non-negative opt-in maximum that has passed the ceiling test, the requirement
is at most the maximum and the compound condition holds exactly when the
requirement exceeds 49152; and when the value
found by the opt-in query is non-negative, the load procedure gated on the
requirement alone ends the same way, with the same handle and the same calls,
as `lazy_init_handle`. -/
theorem C10_optin_second_conjunct_redundant (D : Driver) (k : TritonKernel) (w : World)
    (hm : 0 ≤ (D (.cuDeviceGetAttribute .MAX_SHARED_MEMORY_PER_BLOCK_OPTIN
      (D .cuCtxGetDevice).out)).out) :
    (∀ (s : Nat) (m : Int), 0 ≤ m → exceeds_ceiling s m = false →
      (s : Int) ≤ m ∧ needs_optin s m = decide (s > 49152)) ∧
    lazy_init_handle_requirement_only D k w = lazy_init_handle D k w := by
  have key : ∀ (s : Nat) (m : Int), 0 ≤ m → exceeds_ceiling s m = false →
      (s : Int) ≤ m ∧ needs_optin s m = decide (s > 49152) := by
    intro s m h0 hc
    unfold exceeds_ceiling at hc
    unfold needs_optin
    have hle := toUInt32_le_self m h0
    simp only [decide_eq_false_iff_not, not_lt] at hc
    refine ⟨by omega, ?_⟩
    by_cases hs : s > 49152
    · have : m > 49152 := by omega
      simp [hs, this]
    · simp [hs]
  refine ⟨key, ?_⟩
  unfold lazy_init_handle_requirement_only lazy_init_handle
  simp only []
  by_cases hc : exceeds_ceiling k.shared_ (D (.cuDeviceGetAttribute
      .MAX_SHARED_MEMORY_PER_BLOCK_OPTIN (D .cuCtxGetDevice).out)).out = true
  · simp only [hc, if_true]
  · simp only [Bool.not_eq_true] at hc
    simp only [(key _ _ hm hc).2]

/-- Witness for C10: a requirement of 70000 bytes with an opt-in maximum of 99000. -/
theorem C10_optin_second_conjunct_redundant_witness :
    lazy_init_handle_requirement_only (demoDriver 8 0 99000 1024) (sampleKernel 70000 80)
        readyWorld
      = lazy_init_handle (demoDriver 8 0 99000 1024) (sampleKernel 70000 80) readyWorld :=
  (C10_optin_second_conjunct_redundant (demoDriver 8 0 99000 1024) (sampleKernel 70000 80)
    readyWorld (by decide)).2

end triton_jit
